import Mathlib

/-!
Shallow embedding of the rend3-pbr render routine (`rend3-pbr/src/lib.rs`):
the `PbrRenderRoutine` orchestrator, its `PrimaryPasses` pipeline set, the
`RenderTextures` target set, and the per-frame `render` trace.
-/

namespace Rend3

/-- The source enum `rend3::types::TransparencyType`. -/
inductive TransparencyType
  | Opaque
  | Cutout
  | Blend
deriving DecidableEq, Repr

/-- Modelled from the spec: sample counts selectable in `RenderTextureOptions`
(the `utils` module declaring `SampleCount` is absent from `src/`); the spec
only distinguishes sample count 1 from multisampled (> 1). -/
inductive SampleCount
  | One
  | Four
deriving DecidableEq, Repr

def SampleCount.toNat : SampleCount → Nat
  | .One => 1
  | .Four => 4

/-- The external data managers `render` locks (fields of `Renderer`). -/
inductive Manager
  | mesh
  | object
  | directionalLight
  | material
  | d2Texture
  | d2cTexture
  | globalResources
deriving DecidableEq, Repr

/-- One observable step of `PbrRenderRoutine::render`.  Lock acquire/release
events model the RwLock guards; `readyCall` models the manager `ready()`
flush calls; the remaining constructors are the per-frame stages.  A
`prepass`/`drawForward` event carries the transparency class of the pass it
was invoked on and the class of the culled set handed to it.
`queueSubmit`/`queuePresent` are in the vocabulary so that their absence from
the trace is a meaningful statement. -/
inductive Event
  | acquireWrite (m : Manager)
  | releaseWrite (m : Manager)
  | acquireRead (m : Manager)
  | releaseRead (m : Manager)
  | readyCall (m : Manager)
  | updateSkybox (handle : Option Nat)
  | cullShadow
  | cullPrimary (t : TransparencyType)
  | drawShadow
  | prepass (passClass culledClass : TransparencyType)
  | drawSkybox
  | drawForward (passClass culledClass : TransparencyType)
  | tonemapBlit
  | finishEncoder
  | pushEncoder
  | queueSubmit
  | queuePresent
deriving DecidableEq, Repr

/-- Index of the first occurrence of `e` (length of the list if absent). -/
def firstIdx (e : Event) : List Event → Nat
  | [] => 0
  | x :: xs => if x = e then 0 else firstIdx e xs + 1

/-- Number of occurrences of `e`. -/
def countEv (e : Event) : List Event → Nat
  | [] => 0
  | x :: xs => (if x = e then 1 else 0) + countEv e xs

/-- Number of events satisfying `f`. -/
def countIf (f : Event → Bool) : List Event → Nat
  | [] => 0
  | x :: xs => (if f x then 1 else 0) + countIf f xs

/-- The source enum `common::depth_pass::DepthPassType`. -/
inductive DepthPassType
  | Shadow
  | Prepass
deriving DecidableEq, Repr

inductive PipelineKind
  | depth (ty : DepthPassType)
  | skybox
  | forward
deriving DecidableEq, Repr

/-- A compiled GPU pipeline.  `id` models object identity of the `Arc` the
builder returned: two pipelines are the same object exactly when their ids
coincide, and each builder call hands out fresh ids. -/
structure Pipeline where
  id : Nat
  kind : PipelineKind
  samples : SampleCount
  transparency : Option TransparencyType
deriving DecidableEq, Repr

/-- Return type of `common::depth_pass::build_depth_pass_shader` as consumed
by `PrimaryPasses::new`: one pipeline per shadow-casting class. -/
structure DepthPassPipelines where
  opaque_variant : Pipeline
  cutout_variant : Pipeline
deriving DecidableEq, Repr

/-- Modelled from the spec: the Pass Pipeline Builder "compiles the concrete
GPU pipeline objects (depth-only, …) for each transparency class and sample
count" (`common::depth_pass` is absent from `src/`).  `freshId` and
`freshId + 1` model the two fresh `Arc`s it returns. -/
def build_depth_pass_shader (ty : DepthPassType) (samples : SampleCount) (freshId : Nat) :
    DepthPassPipelines :=
  { opaque_variant := ⟨freshId, .depth ty, samples, some .Opaque⟩
    cutout_variant := ⟨freshId + 1, .depth ty, samples, some .Cutout⟩ }

/-- Modelled from the spec: skybox pipeline builder (`common::skybox_pass` is
absent from `src/`). -/
def build_skybox_shader (samples : SampleCount) (freshId : Nat) : Pipeline :=
  ⟨freshId, .skybox, samples, none⟩

/-- Modelled from the spec: forward pipeline builder (`common::forward_pass`
is absent from `src/`), one fresh pipeline per transparency class. -/
def build_forward_pass_shader (transparency : TransparencyType) (samples : SampleCount)
    (freshId : Nat) : Pipeline :=
  ⟨freshId, .forward, samples, some transparency⟩

/-- Constructor `directional::DirectionalShadowPass::new(cutout, opaque)`. -/
structure DirectionalShadowPass where
  cutout_pipeline : Pipeline
  opaque_pipeline : Pipeline
deriving DecidableEq, Repr

/-- Constructor `skybox::SkyboxPass::new(pipeline)`. -/
structure SkyboxPass where
  pipeline : Pipeline
deriving DecidableEq, Repr

/-- Constructor `forward::ForwardPass::new(depth_pipeline, pipeline, transparency)`. -/
structure ForwardPass where
  depth_pipeline : Pipeline
  pipeline : Pipeline
  transparency : TransparencyType
deriving DecidableEq, Repr

structure PrimaryPasses where
  shadow_passes : DirectionalShadowPass
  skybox_pass : SkyboxPass
  opaque_pass : ForwardPass
  cutout_pass : ForwardPass
  transparent_pass : ForwardPass
deriving DecidableEq, Repr

/-- Source `PrimaryPasses::new` (lib.rs 329-410): shadow depth pipelines are built
with `SampleCount::One`, prepass depth / skybox / forward pipelines with the
`samples` argument; the pass wiring clones the `Arc`s exactly as in the
source (`transparent_pass` and `opaque_pass` both receive
`depth_pipelines.opaque`, `cutout_pass` receives `depth_pipelines.cutout`).
`freshId` is the next unused pipeline identity. -/
def PrimaryPasses.new (samples : SampleCount) (freshId : Nat) : PrimaryPasses :=
  let shadow_pipelines := build_depth_pass_shader .Shadow .One freshId
  let depth_pipelines := build_depth_pass_shader .Prepass samples (freshId + 2)
  let skybox_pipeline := build_skybox_shader samples (freshId + 4)
  let opaque_pipeline := build_forward_pass_shader .Opaque samples (freshId + 5)
  let cutout_pipeline := build_forward_pass_shader .Cutout samples (freshId + 6)
  let transparent_pipeline := build_forward_pass_shader .Blend samples (freshId + 7)
  { shadow_passes := ⟨shadow_pipelines.cutout_variant, shadow_pipelines.opaque_variant⟩
    skybox_pass := ⟨skybox_pipeline⟩
    transparent_pass := ⟨depth_pipelines.opaque_variant, transparent_pipeline, .Blend⟩
    cutout_pass := ⟨depth_pipelines.cutout_variant, cutout_pipeline, .Cutout⟩
    opaque_pass := ⟨depth_pipelines.opaque_variant, opaque_pipeline, .Opaque⟩ }

/-- Number of pipeline identities one `PrimaryPasses.new` call consumes. -/
def PrimaryPasses.newIdSpan : Nat := 8

/-- Options struct `RenderTextureOptions`: resolution and sample count. -/
structure RenderTextureOptions where
  width : Nat
  height : Nat
  samples : SampleCount
deriving DecidableEq, Repr

/-- Modelled from the spec: `RenderTextures` (the `utils` module is absent
from `src/`) — "color attachment, optional multisample resolve target, depth
attachment, tagged with the sample count and resolution used to create them.
Invariant: resolve target exists iff sample count > 1." -/
structure RenderTextures where
  width : Nat
  height : Nat
  samples : SampleCount
  resolve : Bool
deriving DecidableEq, Repr

/-- Modelled from the spec: `RenderTextures::new(device, options)`. -/
def RenderTextures.new (options : RenderTextureOptions) : RenderTextures :=
  ⟨options.width, options.height, options.samples, decide (1 < options.samples.toNat)⟩

/-- The mutable state of `PbrRenderRoutine` relevant to the claims.
`next_id` is the fresh-identity counter for pipelines built next. -/
structure PbrRenderRoutine where
  primary_passes : PrimaryPasses
  skybox_texture : Option Nat
  render_textures : RenderTextures
  next_id : Nat
deriving DecidableEq, Repr

/-- Source `PbrRenderRoutine::new` (lib.rs 41-71), restricted to the modelled
fields. -/
def PbrRenderRoutine.new (options : RenderTextureOptions) : PbrRenderRoutine :=
  { primary_passes := PrimaryPasses.new options.samples 0
    skybox_texture := none
    render_textures := RenderTextures.new options
    next_id := PrimaryPasses.newIdSpan }

/-- Source `PbrRenderRoutine::set_background_texture` (lib.rs 73-75). -/
def PbrRenderRoutine.set_background_texture (r : PbrRenderRoutine) (handle : Option Nat) :
    PbrRenderRoutine :=
  { r with skybox_texture := handle }

/-- Source `PbrRenderRoutine::resize` (lib.rs 77-83): always replace the render
textures; rebuild the primary passes only when the sample count changed. -/
def PbrRenderRoutine.resize (r : PbrRenderRoutine) (options : RenderTextureOptions) :
    PbrRenderRoutine :=
  if r.render_textures.samples ≠ options.samples then
    { r with
      render_textures := RenderTextures.new options
      primary_passes := PrimaryPasses.new options.samples r.next_id
      next_id := r.next_id + PrimaryPasses.newIdSpan }
  else
    { r with render_textures := RenderTextures.new options }

/-- The event trace of one `PbrRenderRoutine::render` call (lib.rs 87-313),
in source order: the six manager write guards are taken at lines 96-101 and
dropped only when the function returns (in reverse declaration order); the
`ready()` flushes are lines 105-114; `update_skybox` receives the stored
`skybox_texture`; primary culling runs transparent (141), cutout (152),
opaque (163); the primary render pass records prepass opaque/cutout, skybox,
forward opaque/cutout/transparent; the tonemap blit (302) is recorded last
before `encoder.finish()` is pushed (312). -/
def renderTrace (r : PbrRenderRoutine) : List Event :=
  [ .acquireWrite .mesh,
    .acquireWrite .object,
    .acquireWrite .directionalLight,
    .acquireWrite .material,
    .acquireWrite .d2Texture,
    .acquireWrite .d2cTexture,
    .readyCall .object,
    .readyCall .material,
    .readyCall .d2Texture,
    .readyCall .d2cTexture,
    .readyCall .directionalLight,
    .readyCall .mesh,
    .updateSkybox r.skybox_texture,
    .cullShadow,
    .acquireRead .globalResources,
    .cullPrimary .Blend,
    .cullPrimary .Cutout,
    .cullPrimary .Opaque,
    .drawShadow,
    .prepass .Opaque .Opaque,
    .prepass .Cutout .Cutout,
    .drawSkybox,
    .drawForward .Opaque .Opaque,
    .drawForward .Cutout .Cutout,
    .drawForward .Blend .Blend,
    .tonemapBlit,
    .finishEncoder,
    .pushEncoder,
    .releaseRead .globalResources,
    .releaseWrite .d2cTexture,
    .releaseWrite .d2Texture,
    .releaseWrite .material,
    .releaseWrite .directionalLight,
    .releaseWrite .object,
    .releaseWrite .mesh ]

/-- Events that record commands into the frame's encoder (directly or inside
its render pass). -/
def Event.records : Event → Bool
  | .cullShadow => true
  | .cullPrimary _ => true
  | .drawShadow => true
  | .prepass _ _ => true
  | .drawSkybox => true
  | .drawForward _ _ => true
  | .tonemapBlit => true
  | _ => false

/-- A finished `wgpu::CommandBuffer`: the commands its encoder recorded. -/
structure CommandBuffer where
  ops : List Event
deriving DecidableEq, Repr

/-- The command buffer `encoder.finish()` produces for one frame. -/
def finishedBuffer (r : PbrRenderRoutine) : CommandBuffer :=
  ⟨(renderTrace r).filter Event.records⟩

/-- The effect of `render` on the caller-supplied `encoders: &mut Vec<CommandBuffer>`
(lib.rs 312: `encoders.push(encoder.finish())`). -/
def PbrRenderRoutine.render (r : PbrRenderRoutine) (encoders : List CommandBuffer) :
    List CommandBuffer :=
  encoders ++ [finishedBuffer r]

/-- Whether manager `m`'s write lock is held after processing event `e`. -/
def writeHeldStep (m : Manager) (held : Bool) : Event → Bool
  | .acquireWrite n => if n = m then true else held
  | .releaseWrite n => if n = m then false else held
  | _ => held

/-- Whether manager `m`'s write lock is held at the moment the event at
position `i` of the trace executes. -/
def writeHeldAt (tr : List Event) (i : Nat) (m : Manager) : Bool :=
  (tr.take i).foldl (writeHeldStep m) false

/-- An event is a depth-prepass recording. -/
def Event.isPrepass : Event → Bool
  | .prepass _ _ => true
  | _ => false

/-- An event is a depth-prepass recording that involves the Blend class,
either as the pass drawn or as the culled set handed to it. -/
def Event.isBlendPrepass : Event → Bool
  | .prepass .Blend _ => true
  | .prepass _ .Blend => true
  | _ => false

/-- A concrete options value: 640x480, single-sampled. -/
def opts1 : RenderTextureOptions := ⟨640, 480, .One⟩

/-- A concrete options value differing from `opts1` in resolution only. -/
def opts1b : RenderTextureOptions := ⟨800, 600, .One⟩

/-- A concrete options value differing from `opts1` in sample count. -/
def opts4 : RenderTextureOptions := ⟨640, 480, .Four⟩

/-- A concrete routine instance, as built by `PbrRenderRoutine::new`. -/
def routine0 : PbrRenderRoutine := PbrRenderRoutine.new opts1

theorem resize_render_textures (r : PbrRenderRoutine) (o : RenderTextureOptions) :
    (r.resize o).render_textures = RenderTextures.new o := by
  unfold PbrRenderRoutine.resize
  split <;> rfl

theorem resize_noop (x : PbrRenderRoutine) (o : RenderTextureOptions)
    (h : x.render_textures = RenderTextures.new o) : x.resize o = x := by
  have hs : x.render_textures.samples = o.samples := by
    simp [h, RenderTextures.new]
  unfold PbrRenderRoutine.resize
  split
  · next hc => exact absurd hs hc
  · rw [← h]

/-- C1 (counterexample): on a concrete routine the claimed order of the
primary culling stages — Opaque before Cutout before Transparent — is false:
render() culls the Transparent class first and the Opaque class last. -/
theorem c1_claimed_cull_order_false :
    ¬ (firstIdx (.cullPrimary .Opaque) (renderTrace routine0) <
         firstIdx (.cullPrimary .Cutout) (renderTrace routine0) ∧
       firstIdx (.cullPrimary .Cutout) (renderTrace routine0) <
         firstIdx (.cullPrimary .Blend) (renderTrace routine0)) := by
  simp [routine0, PbrRenderRoutine.new, renderTrace, firstIdx]

/-- C1 (amended): in every render() call the per-frame stages execute
strictly sequentially in the order ResourceSync, CullShadow, CullPrimary for
the transparency classes in the order (Transparent, Cutout, Opaque),
DrawShadow, DrawPrepass(Opaque, Cutout), DrawSkybox, DrawForward(Opaque,
Cutout, Transparent), Tonemap, Submit; each stage executes exactly once. -/
theorem c1_stage_order (r : PbrRenderRoutine) :
    (firstIdx (.readyCall .object) (renderTrace r) < firstIdx .cullShadow (renderTrace r) ∧
     firstIdx (.readyCall .material) (renderTrace r) < firstIdx .cullShadow (renderTrace r) ∧
     firstIdx (.readyCall .d2Texture) (renderTrace r) < firstIdx .cullShadow (renderTrace r) ∧
     firstIdx (.readyCall .d2cTexture) (renderTrace r) < firstIdx .cullShadow (renderTrace r) ∧
     firstIdx (.readyCall .directionalLight) (renderTrace r) < firstIdx .cullShadow (renderTrace r) ∧
     firstIdx (.readyCall .mesh) (renderTrace r) < firstIdx .cullShadow (renderTrace r)) ∧
    (firstIdx .cullShadow (renderTrace r) < firstIdx (.cullPrimary .Blend) (renderTrace r) ∧
     firstIdx (.cullPrimary .Blend) (renderTrace r) < firstIdx (.cullPrimary .Cutout) (renderTrace r) ∧
     firstIdx (.cullPrimary .Cutout) (renderTrace r) < firstIdx (.cullPrimary .Opaque) (renderTrace r) ∧
     firstIdx (.cullPrimary .Opaque) (renderTrace r) < firstIdx .drawShadow (renderTrace r) ∧
     firstIdx .drawShadow (renderTrace r) < firstIdx (.prepass .Opaque .Opaque) (renderTrace r) ∧
     firstIdx (.prepass .Opaque .Opaque) (renderTrace r) <
       firstIdx (.prepass .Cutout .Cutout) (renderTrace r) ∧
     firstIdx (.prepass .Cutout .Cutout) (renderTrace r) < firstIdx .drawSkybox (renderTrace r) ∧
     firstIdx .drawSkybox (renderTrace r) < firstIdx (.drawForward .Opaque .Opaque) (renderTrace r) ∧
     firstIdx (.drawForward .Opaque .Opaque) (renderTrace r) <
       firstIdx (.drawForward .Cutout .Cutout) (renderTrace r) ∧
     firstIdx (.drawForward .Cutout .Cutout) (renderTrace r) <
       firstIdx (.drawForward .Blend .Blend) (renderTrace r) ∧
     firstIdx (.drawForward .Blend .Blend) (renderTrace r) < firstIdx .tonemapBlit (renderTrace r) ∧
     firstIdx .tonemapBlit (renderTrace r) < firstIdx .finishEncoder (renderTrace r) ∧
     firstIdx .finishEncoder (renderTrace r) < firstIdx .pushEncoder (renderTrace r)) ∧
    (countEv .cullShadow (renderTrace r) = 1 ∧
     countEv (.cullPrimary .Opaque) (renderTrace r) = 1 ∧
     countEv (.cullPrimary .Cutout) (renderTrace r) = 1 ∧
     countEv (.cullPrimary .Blend) (renderTrace r) = 1 ∧
     countEv .drawShadow (renderTrace r) = 1 ∧
     countEv (.prepass .Opaque .Opaque) (renderTrace r) = 1 ∧
     countEv (.prepass .Cutout .Cutout) (renderTrace r) = 1 ∧
     countEv .drawSkybox (renderTrace r) = 1 ∧
     countEv (.drawForward .Opaque .Opaque) (renderTrace r) = 1 ∧
     countEv (.drawForward .Cutout .Cutout) (renderTrace r) = 1 ∧
     countEv (.drawForward .Blend .Blend) (renderTrace r) = 1 ∧
     countEv .tonemapBlit (renderTrace r) = 1 ∧
     countEv .finishEncoder (renderTrace r) = 1 ∧
     countEv .pushEncoder (renderTrace r) = 1) := by
  refine ⟨⟨?_, ?_, ?_, ?_, ?_, ?_⟩,
    ⟨?_, ?_, ?_, ?_, ?_, ?_, ?_, ?_, ?_, ?_, ?_, ?_, ?_⟩,
    ?_, ?_, ?_, ?_, ?_, ?_, ?_, ?_, ?_, ?_, ?_, ?_, ?_, ?_⟩ <;>
    simp [renderTrace, firstIdx, countEv]

/-- C2 (counterexample): after PrimaryPasses::new the prepass pipeline held
by the Opaque forward pass and the one held by the Cutout forward pass are
distinct objects. -/
theorem c2_shared_prepass_false :
    ¬ ((PrimaryPasses.new .One 0).opaque_pass.depth_pipeline =
        (PrimaryPasses.new .One 0).cutout_pass.depth_pipeline) := by
  simp [PrimaryPasses.new, build_depth_pass_shader, Pipeline.mk.injEq]

/-- C2 (amended): after PrimaryPasses::new, the depth prepass pipeline is
shared by reference between the Opaque and Transparent forward passes (same
object); the Cutout pass holds a distinct cutout-variant prepass pipeline. -/
theorem c2_prepass_sharing (s : SampleCount) (i : Nat) :
    (PrimaryPasses.new s i).opaque_pass.depth_pipeline =
      (PrimaryPasses.new s i).transparent_pass.depth_pipeline ∧
    (PrimaryPasses.new s i).opaque_pass.depth_pipeline ≠
      (PrimaryPasses.new s i).cutout_pass.depth_pipeline ∧
    (PrimaryPasses.new s i).cutout_pass.depth_pipeline ≠
      (PrimaryPasses.new s i).transparent_pass.depth_pipeline := by
  refine ⟨rfl, ?_, ?_⟩ <;>
    simp [PrimaryPasses.new, build_depth_pass_shader, Pipeline.mk.injEq]

/-- C2 (witness): the amended sharing statement evaluated at sample count
One and identity base 0. -/
theorem c2_witness :
    (PrimaryPasses.new .One 0).opaque_pass.depth_pipeline =
      (PrimaryPasses.new .One 0).transparent_pass.depth_pipeline ∧
    (PrimaryPasses.new .One 0).opaque_pass.depth_pipeline ≠
      (PrimaryPasses.new .One 0).cutout_pass.depth_pipeline ∧
    (PrimaryPasses.new .One 0).cutout_pass.depth_pipeline ≠
      (PrimaryPasses.new .One 0).transparent_pass.depth_pipeline :=
  c2_prepass_sharing .One 0

/-- C3: in every render() call the forward color draw for the Opaque class
strictly precedes the one for the Cutout class, which strictly precedes the
one for the Transparent class, each recorded exactly once (the order holds
regardless of how the classes are populated). -/
theorem c3_forward_draw_order (r : PbrRenderRoutine) :
    firstIdx (.drawForward .Opaque .Opaque) (renderTrace r) <
      firstIdx (.drawForward .Cutout .Cutout) (renderTrace r) ∧
    firstIdx (.drawForward .Cutout .Cutout) (renderTrace r) <
      firstIdx (.drawForward .Blend .Blend) (renderTrace r) ∧
    countEv (.drawForward .Opaque .Opaque) (renderTrace r) = 1 ∧
    countEv (.drawForward .Cutout .Cutout) (renderTrace r) = 1 ∧
    countEv (.drawForward .Blend .Blend) (renderTrace r) = 1 := by
  refine ⟨?_, ?_, ?_, ?_, ?_⟩ <;> simp [renderTrace, firstIdx, countEv]

/-- C4 (counterexample): at the moment the Opaque forward draw of a concrete
render() call executes, the material manager's write lock is still held —
exclusive write access is not confined to the ResourceSync flush calls. -/
theorem c4_write_only_during_flush_false :
    ¬ (writeHeldAt (renderTrace routine0)
        (firstIdx (.drawForward .Opaque .Opaque) (renderTrace routine0)) .material = false) := by
  simp [routine0, PbrRenderRoutine.new, renderTrace, firstIdx, writeHeldAt, writeHeldStep]

/-- C4 (amended): render() acquires exclusive write access to the
object/material/texture/light/mesh managers at the start of the call and
holds it for the entire frame construction: the write locks are still held
at CullShadow, at the Transparent forward draw and at the tonemap blit, and
are released only after the finished command buffer is pushed. -/
theorem c4_write_guards_held (r : PbrRenderRoutine) (m : Manager)
    (hm : m ≠ .globalResources) :
    writeHeldAt (renderTrace r) (firstIdx .cullShadow (renderTrace r)) m = true ∧
    writeHeldAt (renderTrace r) (firstIdx (.drawForward .Blend .Blend) (renderTrace r)) m = true ∧
    writeHeldAt (renderTrace r) (firstIdx .tonemapBlit (renderTrace r)) m = true ∧
    firstIdx .pushEncoder (renderTrace r) < firstIdx (.releaseWrite m) (renderTrace r) := by
  cases m with
  | globalResources => exact absurd rfl hm
  | mesh =>
    refine ⟨?_, ?_, ?_, ?_⟩ <;> simp [renderTrace, firstIdx, writeHeldAt, writeHeldStep]
  | object =>
    refine ⟨?_, ?_, ?_, ?_⟩ <;> simp [renderTrace, firstIdx, writeHeldAt, writeHeldStep]
  | directionalLight =>
    refine ⟨?_, ?_, ?_, ?_⟩ <;> simp [renderTrace, firstIdx, writeHeldAt, writeHeldStep]
  | material =>
    refine ⟨?_, ?_, ?_, ?_⟩ <;> simp [renderTrace, firstIdx, writeHeldAt, writeHeldStep]
  | d2Texture =>
    refine ⟨?_, ?_, ?_, ?_⟩ <;> simp [renderTrace, firstIdx, writeHeldAt, writeHeldStep]
  | d2cTexture =>
    refine ⟨?_, ?_, ?_, ?_⟩ <;> simp [renderTrace, firstIdx, writeHeldAt, writeHeldStep]

/-- C4 (witness): the amended statement evaluated on a concrete routine for
the material manager. -/
theorem c4_witness :
    writeHeldAt (renderTrace routine0) (firstIdx .cullShadow (renderTrace routine0)) .material
      = true ∧
    writeHeldAt (renderTrace routine0)
      (firstIdx (.drawForward .Blend .Blend) (renderTrace routine0)) .material = true ∧
    writeHeldAt (renderTrace routine0) (firstIdx .tonemapBlit (renderTrace routine0)) .material
      = true ∧
    firstIdx .pushEncoder (renderTrace routine0) <
      firstIdx (.releaseWrite .material) (renderTrace routine0) :=
  c4_write_guards_held routine0 .material (by decide)

/-- C5: resize rebuilds the Primary Pass Set exactly when the sample count
changed — a sample-count change yields a freshly constructed pass set, a
resolution-only change leaves the pass set object unchanged — and the
Render Target Set is replaced in either case. -/
theorem c5_resize_behavior (r : PbrRenderRoutine) (o : RenderTextureOptions) :
    (r.render_textures.samples ≠ o.samples →
      (r.resize o).primary_passes = PrimaryPasses.new o.samples r.next_id) ∧
    (r.render_textures.samples = o.samples →
      (r.resize o).primary_passes = r.primary_passes) ∧
    (r.resize o).render_textures = RenderTextures.new o := by
  refine ⟨?_, ?_, resize_render_textures r o⟩ <;> intro h <;>
    simp [PbrRenderRoutine.resize, h]

/-- C5 (witness): a sample-count change on a concrete routine rebuilds the
pass set; a resolution-only change leaves it identical. -/
theorem c5_witness :
    (routine0.resize opts4).primary_passes = PrimaryPasses.new opts4.samples routine0.next_id ∧
    (routine0.resize opts1b).primary_passes = routine0.primary_passes :=
  ⟨(c5_resize_behavior routine0 opts4).1 (by decide),
   (c5_resize_behavior routine0 opts1b).2.1 (by decide)⟩

/-- C6: in every render() call exactly two depth-prepass recordings occur —
one for the Opaque pass with the Opaque culled set and one for the Cutout
pass with the Cutout culled set — and no prepass recording involves the
Blend class on either side. -/
theorem c6_no_blend_prepass (r : PbrRenderRoutine) :
    countIf Event.isPrepass (renderTrace r) = 2 ∧
    countEv (.prepass .Opaque .Opaque) (renderTrace r) = 1 ∧
    countEv (.prepass .Cutout .Cutout) (renderTrace r) = 1 ∧
    countIf Event.isBlendPrepass (renderTrace r) = 0 := by
  refine ⟨rfl, ?_, ?_, rfl⟩ <;> simp [renderTrace, countEv]

/-- C7: calling resize twice with identical options yields exactly the state
of a single call: the Render Target Set is equivalent and the Primary Pass
Set is not rebuilt by the second call. -/
theorem c7_resize_idempotent (r : PbrRenderRoutine) (o : RenderTextureOptions) :
    (r.resize o).resize o = r.resize o :=
  resize_noop (r.resize o) o (resize_render_textures r o)

/-- C8: every render() call appends exactly one finished command buffer to
the caller-supplied encoder list, never records a queue submit or present,
and the tonemap blit is the last operation recorded before the buffer is
finished. -/
theorem c8_render_submission (r : PbrRenderRoutine) (encoders : List CommandBuffer) :
    r.render encoders = encoders ++ [finishedBuffer r] ∧
    (r.render encoders).length = encoders.length + 1 ∧
    countEv .queueSubmit (renderTrace r) = 0 ∧
    countEv .queuePresent (renderTrace r) = 0 ∧
    (finishedBuffer r).ops.getLast? = some .tonemapBlit ∧
    countIf Event.records
      ((renderTrace r).drop (firstIdx .tonemapBlit (renderTrace r) + 1)) = 0 := by
  refine ⟨rfl, ?_, ?_, ?_, rfl, ?_⟩
  · simp [PbrRenderRoutine.render]
  · simp [renderTrace, countEv]
  · simp [renderTrace, countEv]
  · simp [renderTrace, firstIdx, countIf, Event.records]

/-- C9: for every sample count handed to PrimaryPasses::new the two shadow
depth pipelines are built single-sampled (SampleCount::One), while the
prepass depth, skybox and forward pipelines of all three classes use the
configured sample count. -/
theorem c9_shadow_pipelines_single_sampled (s : SampleCount) (i : Nat) :
    (PrimaryPasses.new s i).shadow_passes.opaque_pipeline.samples = .One ∧
    (PrimaryPasses.new s i).shadow_passes.cutout_pipeline.samples = .One ∧
    (PrimaryPasses.new s i).opaque_pass.depth_pipeline.samples = s ∧
    (PrimaryPasses.new s i).cutout_pass.depth_pipeline.samples = s ∧
    (PrimaryPasses.new s i).transparent_pass.depth_pipeline.samples = s ∧
    (PrimaryPasses.new s i).skybox_pass.pipeline.samples = s ∧
    (PrimaryPasses.new s i).opaque_pass.pipeline.samples = s ∧
    (PrimaryPasses.new s i).cutout_pass.pipeline.samples = s ∧
    (PrimaryPasses.new s i).transparent_pass.pipeline.samples = s :=
  ⟨rfl, rfl, rfl, rfl, rfl, rfl, rfl, rfl, rfl⟩

/-- C10: set_background_texture mutates only the stored skybox_texture field
— pass set, render textures and the pipeline-identity counter are untouched
— and every render() call passes the stored handle to update_skybox at trace
position 12, before any culling or drawing (CullShadow is at position 13). -/
theorem c10_set_background_texture (r : PbrRenderRoutine) (h : Option Nat) :
    (r.set_background_texture h).skybox_texture = h ∧
    (r.set_background_texture h).primary_passes = r.primary_passes ∧
    (r.set_background_texture h).render_textures = r.render_textures ∧
    (r.set_background_texture h).next_id = r.next_id ∧
    (renderTrace (r.set_background_texture h))[12]? = some (.updateSkybox h) ∧
    (renderTrace r)[12]? = some (.updateSkybox r.skybox_texture) ∧
    firstIdx .cullShadow (renderTrace r) = 13 := by
  refine ⟨rfl, rfl, rfl, rfl, rfl, rfl, ?_⟩
  simp [renderTrace, firstIdx]

end Rend3
